import Mathlib

/-!
Verification of the Skywalker fleet-scan orchestration engine.

This file shallowly embeds the core of the repository:
  * `src/skywalker/walkers/monitoring.py` — `fetch_fleet_metrics`: the
    metrics fetch/merge loop (four independent queries, per-query error
    isolation, percentage normalisation, max-merge of duplicate series);
  * `src/skywalker/core.py` — `ZONE_SUFFIXES`, `STANDARD_REGIONS`;
  * `src/skywalker/main.py` — `run_audit_for_project`: the per-project
    fan-out over resource kinds, its per-kind error handling and the
    worker-pool sizes of each fan-out;
  * `src/skywalker/modes/zombies.py` — the final sort of the zombie
    candidate list.

Python floats carrying metric values and cost estimates are modelled as
rationals (`Rat`); all arithmetic performed on them by the embedded code
(multiplication by 100, `max`, comparisons) is exact on the values the
claims speak about.  Remote API calls are modelled as environment
functions returning `Except String α` (`.error` = the call raised).
Thread pools deliver results in nondeterministic completion order; the
embedding threads an arbitrary reordering function (`Sched`) through each
fan-out and theorems quantify over it.
-/

/-! ## Metrics fetcher (`walkers/monitoring.py`, `fetch_fleet_metrics`) -/

/-- One provider time series: resource labels (each may be missing) and the
chronologically ordered point values; `points.head?` is the latest point,
mirroring `ts.points[0].value.double_value`. -/
structure TimeSeries where
  project_id : Option String
  instance_id : Option String
  zone : Option String
  points : List Rat
deriving DecidableEq, Repr

/-- One merged fleet-metric record (one Python dict in `fleet_data`):
the base identifier fields plus the metric-name → value map, kept as an
insertion-ordered association list exactly like a Python dict. -/
structure FleetSample where
  project_id : String
  instance_id : String
  zone : Option String
  metrics : List (String × Rat)
deriving DecidableEq, Repr

/-- Look up a metric value in a sample; `none` models the key being absent
from the Python dict. -/
def FleetSample.metricValue (s : FleetSample) (label : String) : Option Rat :=
  (s.metrics.find? (fun p => p.1 = label)).map Prod.snd

/-- The four metric labels, in the (insertion-) iteration order of the
`queries` dict of `fetch_fleet_metrics`. -/
def METRIC_LABELS : List String :=
  ["cpu_percent", "memory_percent", "gpu_utilization", "gpu_memory_utilization"]

/-- Percentage normalisation:
`if label in ["cpu_percent", "gpu_memory_utilization"]: val *= 100`. -/
def normalizeVal (label : String) (v : Rat) : Rat :=
  if label = "cpu_percent" ∨ label = "gpu_memory_utilization" then v * 100 else v

/-- Store a value under `label` in a record's metric map:
`fleet_data[key][label] = max(fleet_data[key][label], val)` when the label
is already present, a plain insertion otherwise (dict update keeps the
key's position; a fresh key is appended at the end). -/
def storeMetric (metrics : List (String × Rat)) (label : String) (v : Rat) :
    List (String × Rat) :=
  match metrics.find? (fun p => p.1 = label) with
  | some old => metrics.map (fun p => if p.1 = label then (label, max old.2 v) else p)
  | none => metrics ++ [(label, v)]

/-- The intermediate `fleet_data` dict: `(project_id, instance_id)` key →
partially filled record, in key-insertion order. -/
abbrev FleetState := List ((String × String) × FleetSample)

/-- A fresh record right after the base-info initialisation
(`fleet_data[key]["project_id"] = ...` etc.), with no metric value yet. -/
def baseSample (pid iid : String) (zone : Option String) : FleetSample :=
  ⟨pid, iid, zone, []⟩

/-- Process one time series of the query for `label`, mirroring the body of
the inner `for ts in pages` loop of `fetch_fleet_metrics`: skip the series
when the `project_id` or `instance_id` label is missing or empty
(Python falsiness of `None`/`""`), otherwise initialise the base record on
first sight of the key and, when the series has a point, store its latest
value (normalised) under `label` with the max-merge rule. -/
def processSeries (label : String) (st : FleetState) (ts : TimeSeries) : FleetState :=
  match ts.project_id, ts.instance_id with
  | some pid, some iid =>
    if pid = "" ∨ iid = "" then st
    else
      let key := (pid, iid)
      let st1 : FleetState :=
        if (st.find? (fun p => p.1 = key)).isSome then st
        else st ++ [(key, baseSample pid iid ts.zone)]
      match ts.points.head? with
      | some v =>
        st1.map (fun p =>
          if p.1 = key then
            (key, { p.2 with metrics := storeMetric p.2.metrics label (normalizeVal label v) })
          else p)
      | none => st1
  | _, _ => st

/-- Run one of the four metric queries: a raised provider error
(`PermissionDenied`, `GoogleAPICallError`, anything else) is caught, logged
and leaves the accumulated state untouched; a successful query folds its
series into the state. `queries label = none` models the query raising. -/
def runQuery (queries : String → Option (List TimeSeries)) (st : FleetState)
    (label : String) : FleetState :=
  match queries label with
  | some series => series.foldl (processSeries label) st
  | none => st

/-- `fetch_fleet_metrics`: iterate the four queries in dict order over an
initially empty `fleet_data`, then return `list(fleet_data.values())`. -/
def fetch_fleet_metrics (queries : String → Option (List TimeSeries)) :
    List FleetSample :=
  (METRIC_LABELS.foldl (runQuery queries) []).map Prod.snd

/-! ## Region → zone expansion (`core.py` and `main.py` line 93) -/

/-- `core.py`: the fixed zone suffixes appended to every region. -/
def ZONE_SUFFIXES : List String := ["a", "b", "c", "f"]

/-- `core.py`: the default region list of the CLI. -/
def STANDARD_REGIONS : List String :=
  ["us-central1", "us-west1", "us-east1", "us-east4", "us-west2", "us-west4"]

/-- `main.py` line 93:
`target_zones = [f"{r}-{s}" for r in regions for s in ZONE_SUFFIXES]`. -/
def target_zones (regions : List String) : List String :=
  regions.flatMap (fun r => ZONE_SUFFIXES.map (fun s => r ++ "-" ++ s))

/-! ## Per-project scan orchestrator (`main.py`, `run_audit_for_project`)

Inventory record payloads are opaque to the orchestrator (it only collects
and concatenates them), so each record type keeps just its identifying
fields. -/

/-- A compute instance record (`schemas/compute.py`); the orchestrator only
moves these around, so only the identity fields are kept. -/
structure GCPComputeInstance where
  name : String
  zone : String
deriving DecidableEq, Repr

/-- A custom image record. -/
structure GCPImage where
  name : String
deriving DecidableEq, Repr

/-- A disk snapshot record. -/
structure GCPSnapshot where
  name : String
deriving DecidableEq, Repr

/-- `GCPComputeReport` exactly as `schemas/compute.py` declares it, with
pydantic defaults (all lists empty).  Note: the schema declares NO
`machine_images` field (and no machine-image record class exists), even
though `main.py` line 107 tries to assign one — that assignment therefore
always raises pydantic's no-such-field error; see `computeStep`. -/
structure GCPComputeReport where
  instances : List GCPComputeInstance := []
  images : List GCPImage := []
  snapshots : List GCPSnapshot := []
deriving DecidableEq, Repr

/-- A Cloud Run service record. -/
structure GCPCloudRunService where
  name : String
deriving DecidableEq, Repr

/-- A GKE cluster record. -/
structure GCPCluster where
  name : String
deriving DecidableEq, Repr

/-- A Cloud SQL instance record. -/
structure GCPSQLInstance where
  name : String
deriving DecidableEq, Repr

/-- A storage bucket record. -/
structure GCPBucket where
  name : String
deriving DecidableEq, Repr

/-- One IAM policy binding (`schemas/iam.py`): a role plus member strings. -/
structure GCPPolicyBinding where
  role : String
  members : List String
deriving DecidableEq, Repr

/-- `GCPIAMReport` exactly as `schemas/iam.py` declares it: service
accounts (kept by email) and policy bindings.  The schema declares NO
`user_display_names` field, even though `main.py` line 146 tries to write
into one — that write therefore raises whenever it is reached; see
`iamStep`. -/
structure GCPIAMReport where
  service_accounts : List String := []
  policy_bindings : List GCPPolicyBinding := []
deriving DecidableEq, Repr

/-- A network report: firewall rules and static addresses, kept by name. -/
structure GCPNetworkReport where
  firewalls : List String := []
  addresses : List String := []
deriving DecidableEq, Repr

/-- `GCPVertexReport` with pydantic defaults: all lists empty. -/
structure GCPVertexReport where
  notebooks : List String := []
  models : List String := []
  endpoints : List String := []
deriving DecidableEq, Repr

/-- The value stored under one kind name in `report_data["services"]`:
either a list of records or a single aggregate object, depending on the
kind — the dynamic typing of the Python dict made explicit. -/
inductive SVal where
  | compute (r : GCPComputeReport)
  | cloudRun (l : List GCPCloudRunService)
  | gke (l : List GCPCluster)
  | iam (r : GCPIAMReport)
  | sql (l : List GCPSQLInstance)
  | vertex (r : GCPVertexReport)
  | network (r : GCPNetworkReport)
  | storage (l : List GCPBucket)
deriving DecidableEq, Repr

/-- The warnings `run_audit_for_project` prints to the console, tagged by
the failing kind exactly as the four `console.print` call sites are. -/
inductive Warning where
  | imagesFail (msg : String)
  | sqlFail (project_id msg : String)
  | networkFail (project_id msg : String)
  | storageFail (project_id msg : String)
deriving DecidableEq, Repr

/-- The walker environment: one function per remote call actually reached
by `run_audit_for_project`, returning `.error msg` when the call raises.
`machine_images_call` is the `compute.list_machine_images(project_id)`
call on the right-hand side of `main.py` line 107: because
`GCPComputeReport` declares no `machine_images` field, nothing the call
returns is ever stored (the assignment raises right after), so its
success payload is modelled as `Unit`; the `list_snapshots` call at line
108 is unreachable and has no environment entry.  `get_display_name`
returns a plain string — `UserResolver.get_display_name` yields the
cached name or `""`, and Python truthiness (`if display_name:`) makes
`""` a non-hit. -/
structure AuditEnv where
  list_instances : String → String → Bool → Except String (List GCPComputeInstance)
  list_images : String → Except String (List GCPImage)
  machine_images_call : String → Except String Unit
  list_services : String → String → Except String (List GCPCloudRunService)
  list_clusters : String → String → Except String (List GCPCluster)
  get_iam_report : String → Except String GCPIAMReport
  get_display_name : String → String
  sql_list_instances : String → Except String (List GCPSQLInstance)
  get_vertex_report : String → String → Except String GCPVertexReport
  get_network_report : String → Except String GCPNetworkReport
  list_buckets : String → Except String (List GCPBucket)

/-- Completion-order schedule: each `ThreadPoolExecutor`/`as_completed`
fan-out of `run_audit_for_project` collects results in a nondeterministic
order; a `Sched` picks, per fan-out, how the submitted scope list is
reordered.  Theorems that depend on it assume the reordering is a
permutation. -/
structure Sched where
  computeOrder : List String → List String
  runOrder : List String → List String
  gkeOrder : List String → List String
  vertexOrder : List String → List String

/-- The identity schedule (completion in submission order). -/
def schedId : Sched := ⟨id, id, id, id⟩

/-- `scan_compute_zone`: the walker call with its blanket
`except Exception: return []` — nothing is logged. -/
def scan_compute_zone (env : AuditEnv) (project_id zone : String)
    (include_metrics : Bool) : List GCPComputeInstance :=
  match env.list_instances project_id zone include_metrics with
  | .ok l => l
  | .error _ => []

/-- `scan_run_region`: `except Exception: return []`. -/
def scan_run_region (env : AuditEnv) (project_id region : String) :
    List GCPCloudRunService :=
  match env.list_services project_id region with
  | .ok l => l
  | .error _ => []

/-- `scan_gke_location`: `except Exception: return []`. -/
def scan_gke_location (env : AuditEnv) (project_id location : String) :
    List GCPCluster :=
  match env.list_clusters project_id location with
  | .ok l => l
  | .error _ => []

/-- `scan_vertex_location`: `except Exception: return GCPVertexReport()`. -/
def scan_vertex_location (env : AuditEnv) (project_id location : String) :
    GCPVertexReport :=
  match env.get_vertex_report project_id location with
  | .ok r => r
  | .error _ => {}

/-- Accumulated orchestrator state: the `report_data["services"]` dict in
insertion order, plus the warnings printed so far. -/
structure AuditAcc where
  services : List (String × SVal)
  warnings : List Warning
deriving Repr

/-- `Python "needle in haystack"` substring test, used for
`"roles/owner" in binding.role`. -/
def strContains (haystack needle : String) : Bool :=
  (haystack.splitOn needle).length != 1

/-- `binding.categorized_members["users"]`: the members with the `user:`
kind, stripped of it (`m.split(":")[1]`). -/
def categorizedUsers (b : GCPPolicyBinding) : List String :=
  (b.members.filter (fun m => m.startsWith "user:")).map (fun m =>
    match m.splitOn ":" with
    | _ :: u :: _ => u
    | _ => "")

/-- The message of the pydantic no-such-field error raised by the
assignment `compute_report.machine_images = ...` at `main.py` line 107
(the schema's `GCPComputeReport` declares no such field). -/
def machineImagesFieldError : String :=
  "GCPComputeReport object has no field machine_images"

/-- The message of the AttributeError raised by reading
`iam_res.user_display_names` at `main.py` line 146 (the schema's
`GCPIAMReport` declares no such field). -/
def userDisplayNamesFieldError : String :=
  "GCPIAMReport object has no field user_display_names"

/-- The compute block of `run_audit_for_project`: the zonal fan-out
(results concatenated in completion order, a failing zone silently
contributing `[]`), followed by the single `try` block around the three
global assignments at `main.py` lines 105-112.  The `images` assignment
can land; but the `machine_images` line always raises — either its
walker call raises, or the assignment itself hits the undeclared
`machine_images` field — so the block ALWAYS ends in the `except` with
exactly one images warning, and the `snapshots` line is never reached
(`snapshots` keeps its empty default). -/
def computeStep (env : AuditEnv) (sched : Sched) (project_id : String)
    (regions : List String) (include_metrics : Bool) (acc : AuditAcc) : AuditAcc :=
  let instances :=
    (sched.computeOrder (target_zones regions)).flatMap
      (fun z => scan_compute_zone env project_id z include_metrics)
  let step2 : GCPComputeReport × List Warning :=
    match env.list_images project_id with
    | .error e => ({ instances := instances }, [Warning.imagesFail e])
    | .ok imgs =>
      match env.machine_images_call project_id with
      | .error e => ({ instances := instances, images := imgs }, [Warning.imagesFail e])
      | .ok _ =>
        ({ instances := instances, images := imgs },
         [Warning.imagesFail machineImagesFieldError])
  { services := acc.services ++ [("compute", SVal.compute step2.1)],
    warnings := acc.warnings ++ step2.2 }

/-- The Cloud Run block: one call per region, concatenated in completion
order; the key is always set. -/
def runStep (env : AuditEnv) (sched : Sched) (project_id : String)
    (regions : List String) (acc : AuditAcc) : AuditAcc :=
  let results := (sched.runOrder regions).flatMap (scan_run_region env project_id)
  { acc with services := acc.services ++ [("run", SVal.cloudRun results)] }

/-- The GKE block: one call per region, concatenated in completion order. -/
def gkeStep (env : AuditEnv) (sched : Sched) (project_id : String)
    (regions : List String) (acc : AuditAcc) : AuditAcc :=
  let results := (sched.gkeOrder regions).flatMap (scan_gke_location env project_id)
  { acc with services := acc.services ++ [("gke", SVal.gke results)] }

/-- Whether the display-name enrichment loop at `main.py` lines 141-146
reaches the write `iam_res.user_display_names[user] = display_name`:
it does exactly when some binding whose role mentions `roles/owner` has a
`user:` member whose display name resolves to a truthy (non-empty)
string.  Because `GCPIAMReport` declares no `user_display_names` field,
reaching that write raises an AttributeError. -/
def iamEnrichmentRaises (rep : GCPIAMReport) (resolve : String → String) : Bool :=
  rep.policy_bindings.any (fun b =>
    strContains b.role "roles/owner" &&
    (categorizedUsers b).any (fun u => resolve u != ""))

/-- The IAM block: `iam.get_iam_report(project_id)` is called with NO
try/except at the call site, so a raising IAM walker propagates out of
`run_audit_for_project`.  On success the display-name enrichment loop
runs (also uncaught): if any owner-binding user's display name resolves,
the write to the undeclared `user_display_names` field raises and the
whole function aborts; otherwise the loop writes nothing and the key is
set to the walker's report unchanged. -/
def iamStep (env : AuditEnv) (project_id : String) (acc : AuditAcc) :
    Except String AuditAcc :=
  match env.get_iam_report project_id with
  | .error e => .error e
  | .ok rep =>
    if iamEnrichmentRaises rep env.get_display_name then
      .error userDisplayNamesFieldError
    else
      .ok { acc with services := acc.services ++ [("iam", SVal.iam rep)] }

/-- The Cloud SQL block: the call is wrapped in try/except; on failure one
warning is printed and the `"sql"` key is NOT set. -/
def sqlStep (env : AuditEnv) (project_id : String) (acc : AuditAcc) : AuditAcc :=
  match env.sql_list_instances project_id with
  | .ok l => { acc with services := acc.services ++ [("sql", SVal.sql l)] }
  | .error e => { acc with warnings := acc.warnings ++ [Warning.sqlFail project_id e] }

/-- The Vertex AI block: one call per region, sub-reports merged
field-by-field in completion order; the key is always set. -/
def vertexStep (env : AuditEnv) (sched : Sched) (project_id : String)
    (regions : List String) (acc : AuditAcc) : AuditAcc :=
  let rep := (sched.vertexOrder regions).foldl
    (fun (r : GCPVertexReport) loc =>
      let sub := scan_vertex_location env project_id loc
      { notebooks := r.notebooks ++ sub.notebooks,
        models := r.models ++ sub.models,
        endpoints := r.endpoints ++ sub.endpoints })
    {}
  { acc with services := acc.services ++ [("vertex", SVal.vertex rep)] }

/-- The network block: try/except; on failure one warning, no key. -/
def networkStep (env : AuditEnv) (project_id : String) (acc : AuditAcc) : AuditAcc :=
  match env.get_network_report project_id with
  | .ok r => { acc with services := acc.services ++ [("network", SVal.network r)] }
  | .error e =>
    { acc with warnings := acc.warnings ++ [Warning.networkFail project_id e] }

/-- The storage block: try/except; on failure one warning, no key. -/
def storageStep (env : AuditEnv) (project_id : String) (acc : AuditAcc) : AuditAcc :=
  match env.list_buckets project_id with
  | .ok l => { acc with services := acc.services ++ [("storage", SVal.storage l)] }
  | .error e =>
    { acc with warnings := acc.warnings ++ [Warning.storageFail project_id e] }

/-- The returned `report_data`, plus the warnings printed while building
it (the Python code prints them to the console rather than returning
them; they are carried here so theorems can speak about logging). -/
structure AuditReport where
  project_id : String
  services : List (String × SVal)
  warnings : List Warning
deriving Repr

/-- `run_audit_for_project`: the per-kind blocks in source order, each
guarded by `if kind in services`.  The only uncaught walker call is the
IAM one, whose exception aborts the whole function (and with it every
block after the IAM block). -/
def run_audit_for_project (project_id : String) (services : List String)
    (regions : List String) (include_metrics : Bool) (env : AuditEnv)
    (sched : Sched) : Except String AuditReport :=
  let acc : AuditAcc := ⟨[], []⟩
  let acc := if "compute" ∈ services then
    computeStep env sched project_id regions include_metrics acc else acc
  let acc := if "run" ∈ services then
    runStep env sched project_id regions acc else acc
  let acc := if "gke" ∈ services then
    gkeStep env sched project_id regions acc else acc
  match (if "iam" ∈ services then iamStep env project_id acc else .ok acc) with
  | .error e => .error e
  | .ok acc =>
    let acc := if "sql" ∈ services then sqlStep env project_id acc else acc
    let acc := if "vertex" ∈ services then
      vertexStep env sched project_id regions acc else acc
    let acc := if "network" ∈ services then
      networkStep env project_id acc else acc
    let acc := if "storage" ∈ services then
      storageStep env project_id acc else acc
    .ok ⟨project_id, acc.services, acc.warnings⟩

/-- The entry stored under a kind name in the report's services dict. -/
def AuditReport.serviceEntry (r : AuditReport) (kind : String) : Option SVal :=
  (r.services.find? (fun p => p.1 = kind)).map Prod.snd

/-- Worker-pool size of the compute zonal fan-out:
`ThreadPoolExecutor(max_workers=10)` — a literal, whatever the zone list. -/
def compute_max_workers (_zones : List String) : Nat := 10

/-- Worker-pool size of the Cloud Run fan-out:
`ThreadPoolExecutor(max_workers=len(regions))`. -/
def run_max_workers (regions : List String) : Nat := regions.length

/-- Worker-pool size of the GKE fan-out:
`ThreadPoolExecutor(max_workers=len(regions))`. -/
def gke_max_workers (regions : List String) : Nat := regions.length

/-- Worker-pool size of the Vertex AI fan-out:
`ThreadPoolExecutor(max_workers=len(regions))`. -/
def vertex_max_workers (regions : List String) : Nat := regions.length

/-! ## Zombie hunt final sort (`modes/zombies.py`, `run_zombie_hunt`) -/

/-- The `ZombieResource` dataclass. -/
structure ZombieResource where
  resource_type : String
  project_id : String
  name : String
  details : String
  monthly_cost_est : Rat
  reason : String
deriving DecidableEq, Repr

/-- The ordering used by
`hunter.zombies.sort(key=lambda z: z.monthly_cost_est, reverse=True)`:
`a` may come before `b` when its estimated cost is at least `b`'s. -/
def costGE (a b : ZombieResource) : Prop :=
  b.monthly_cost_est ≤ a.monthly_cost_est

instance : DecidableRel costGE := fun a b =>
  inferInstanceAs (Decidable (b.monthly_cost_est ≤ a.monthly_cost_est))

instance : IsTotal ZombieResource costGE :=
  ⟨fun a b => le_total b.monthly_cost_est a.monthly_cost_est⟩

instance : IsTrans ZombieResource costGE :=
  ⟨fun _ _ _ hab hbc => le_trans hbc hab⟩

/-- The final sort of the candidate list, `modes/zombies.py` line 166:
Python's `list.sort` is stable and `reverse=True` keeps equal keys in
their original order, so the result is the unique stable descending
reordering — realised here by a stable insertion sort. -/
def sortZombiesByCost (zombies : List ZombieResource) : List ZombieResource :=
  zombies.insertionSort costGE

/-! ## Concrete environments used by witnesses and counterexamples -/

/-- An environment where every walker call succeeds with an empty result. -/
def envOk : AuditEnv where
  list_instances := fun _ _ _ => .ok []
  list_images := fun _ => .ok []
  machine_images_call := fun _ => .ok ()
  list_services := fun _ _ => .ok []
  list_clusters := fun _ _ => .ok []
  get_iam_report := fun _ => .ok {}
  get_display_name := fun _ => ""
  sql_list_instances := fun _ => .ok []
  get_vertex_report := fun _ _ => .ok {}
  get_network_report := fun _ => .ok {}
  list_buckets := fun _ => .ok []

/-! ## Claims C6 and C9: zone expansion and worker-pool sizes -/

/-- C6: for every regions list the compute zone expansion is exactly the
cartesian product of the regions with the fixed suffix set
`{a, b, c, f}` — membership is characterised by the product, the count is
`4 × len(regions)`, and `["us-central1"]` expands to the four
`us-central1-*` zones.  The expansion is a pure function of `regions`, so
determinism is immediate. -/
theorem C6_zone_expansion_cartesian (regions : List String) :
    (target_zones regions).length = 4 * regions.length ∧
    (∀ z, z ∈ target_zones regions ↔
      ∃ r ∈ regions, ∃ s ∈ ZONE_SUFFIXES, z = r ++ "-" ++ s) ∧
    target_zones ["us-central1"] =
      ["us-central1-a", "us-central1-b", "us-central1-c", "us-central1-f"] := by
  refine ⟨?_, ?_, by decide⟩
  · induction regions with
    | nil => rfl
    | cons r rs ih =>
      have hcons : target_zones (r :: rs) =
          (ZONE_SUFFIXES.map (fun s => r ++ "-" ++ s)) ++ target_zones rs := rfl
      rw [hcons, List.length_append, ih, List.length_map]
      simp only [ZONE_SUFFIXES, List.length_cons, List.length_nil]
      omega
  · intro z
    simp only [target_zones, List.mem_flatMap, List.mem_map]
    constructor
    · rintro ⟨r, hr, s, hs, rfl⟩
      exact ⟨r, hr, s, hs, rfl⟩
    · rintro ⟨r, hr, s, hs, rfl⟩
      exact ⟨r, hr, s, hs, rfl⟩

/-- C6 witness: the general theorem applied to the concrete one-region
list, with its conclusions evaluated. -/
theorem C6_zone_expansion_cartesian_witness :
    (target_zones ["us-central1"]).length = 4 * (1 : Nat) ∧
    "us-central1-b" ∈ target_zones ["us-central1"] := by
  have h := C6_zone_expansion_cartesian ["us-central1"]
  exact ⟨h.1, (h.2.1 "us-central1-b").mpr ⟨"us-central1", by decide, "b", by decide, by decide⟩⟩

/-- C9 counterexample: the Cloud Run fan-out's worker-pool size is
`len(regions)`, so it is NOT a fixed constant independent of the number
of scopes — one region gives a pool of 1, two regions a pool of 2. -/
theorem C9_regional_pool_not_fixed_counterexample :
    run_max_workers ["us-central1"] ≠ run_max_workers ["us-central1", "us-west1"] ∧
    gke_max_workers ["us-central1"] ≠ gke_max_workers ["us-central1", "us-west1"] ∧
    vertex_max_workers ["us-central1"] ≠ vertex_max_workers ["us-central1", "us-west1"] := by
  decide

/-- C9 amended: only the compute (zonal) fan-out has a fixed worker cap —
10, independent of the zone list — while the regional kinds (run, gke,
vertex) size their pool as exactly the number of requested regions, which
grows with the input instead of being a fixed bound. -/
theorem C9_pool_sizes_amended :
    (∀ zones zones' : List String,
      compute_max_workers zones = compute_max_workers zones') ∧
    (∀ zones : List String, compute_max_workers zones = 10) ∧
    (∀ regions : List String,
      run_max_workers regions = regions.length ∧
      gke_max_workers regions = regions.length ∧
      vertex_max_workers regions = regions.length) :=
  ⟨fun _ _ => rfl, fun _ => rfl, fun _ => ⟨rfl, rfl, rfl⟩⟩

/-! ## Claim C4: percentage scaling and absent fields -/

/-- The C4 scenario: the CPU query returns one series for resource `77`
in project `proj-b` whose latest point is the fraction `0.9`; the other
three queries return no series. -/
def qProjB : String → Option (List TimeSeries) := fun label =>
  if label = "cpu_percent" then
    some [⟨some "proj-b", some "77", some "us-central1-a", [(9 : Rat) / 10]⟩]
  else some []

/-- C4: the fetch yields exactly one sample, keyed (proj-b, 77), whose
`cpu_percent` value is the fraction scaled by 100 (`90`), and whose
`memory_percent` key is absent altogether, not `0`. -/
theorem C4_cpu_scaled_memory_absent :
    fetch_fleet_metrics qProjB =
      [⟨"proj-b", "77", some "us-central1-a", [("cpu_percent", 90)]⟩] ∧
    (fetch_fleet_metrics qProjB).map (fun s => s.metricValue "cpu_percent") =
      [some 90] ∧
    (fetch_fleet_metrics qProjB).map (fun s => s.metricValue "memory_percent") =
      [none] := by
  have h : fetch_fleet_metrics qProjB =
      [⟨"proj-b", "77", some "us-central1-a", [("cpu_percent", 90)]⟩] := by
    simp [fetch_fleet_metrics, METRIC_LABELS, runQuery, qProjB, processSeries,
      baseSample, storeMetric, normalizeVal]
    norm_num
  refine ⟨h, ?_, ?_⟩ <;> rw [h] <;> simp [FleetSample.metricValue]

/-! ## Claim C7: per-metric query failure isolation -/

/-- C7: a metric query that raises behaves exactly like a query returning
no series: the run still returns normally and every other metric's
collected values are untouched — the erroring fetch is EQUAL to the fetch
in which that one metric merely has no data. -/
theorem C7_metric_error_degrades_to_no_data
    (q : String → Option (List TimeSeries)) (lab : String) :
    fetch_fleet_metrics (fun l => if l = lab then none else q l) =
      fetch_fleet_metrics (fun l => if l = lab then some [] else q l) := by
  unfold fetch_fleet_metrics
  congr 1
  apply List.foldl_ext
  intro st label _
  by_cases hl : label = lab <;> simp [runQuery, hl]

/-! ## Claim C5: max-merge of duplicate GPU series -/

/-- A GPU-utilization series for one accelerator of instance `iid`. -/
def gpuDupSeries (pid iid : String) (z : Option String) (v : Rat) : TimeSeries :=
  ⟨some pid, some iid, z, [v]⟩

/-- A query environment in which only the GPU-utilization query returns
data: two series for the SAME resource (one per physical accelerator)
with values `a` and `b`, in that order. -/
def gpuDupQueries (pid iid : String) (z : Option String) (a b : Rat) :
    String → Option (List TimeSeries) := fun label =>
  if label = "gpu_utilization" then
    some [gpuDupSeries pid iid z a, gpuDupSeries pid iid z b]
  else some []

/-- C5: merging two GPU-utilization series for the same
`(project_id, resource_id)` key stores their MAX — never the sum or the
average — and the merged sample is invariant under the order in which the
two duplicate series arrive, so a later lower value never overwrites a
higher one. -/
theorem C5_gpu_duplicate_series_max_merge (pid iid : String) (z : Option String)
    (a b : Rat) (hp : pid ≠ "") (hi : iid ≠ "") :
    fetch_fleet_metrics (gpuDupQueries pid iid z a b) =
      fetch_fleet_metrics (gpuDupQueries pid iid z b a) ∧
    fetch_fleet_metrics (gpuDupQueries pid iid z a b) =
      [⟨pid, iid, z, [("gpu_utilization", max a b)]⟩] := by
  have heval : ∀ x y : Rat, fetch_fleet_metrics (gpuDupQueries pid iid z x y) =
      [⟨pid, iid, z, [("gpu_utilization", max x y)]⟩] := by
    intro x y
    simp [fetch_fleet_metrics, METRIC_LABELS, runQuery, gpuDupQueries, gpuDupSeries,
      processSeries, baseSample, storeMetric, normalizeVal, hp, hi]
  refine ⟨?_, heval a b⟩
  rw [heval a b, heval b a, max_comm]

/-- C5 witness: the claim's own numbers — accelerator values 0.3 and 0.75
merge to 0.75 in either arrival order (not 1.05 and not 0.525). -/
theorem C5_gpu_duplicate_series_max_merge_witness :
    fetch_fleet_metrics (gpuDupQueries "proj-g" "42" none ((3 : Rat)/10) ((3 : Rat)/4)) =
      fetch_fleet_metrics (gpuDupQueries "proj-g" "42" none ((3 : Rat)/4) ((3 : Rat)/10)) ∧
    fetch_fleet_metrics (gpuDupQueries "proj-g" "42" none ((3 : Rat)/10) ((3 : Rat)/4)) =
      [⟨"proj-g", "42", none, [("gpu_utilization", (3 : Rat)/4)]⟩] := by
  have h := C5_gpu_duplicate_series_max_merge "proj-g" "42" none ((3 : Rat)/10) ((3 : Rat)/4)
    (by decide) (by decide)
  refine ⟨h.1, ?_⟩
  rw [h.2]
  norm_num [max_eq_right]

/-! ## Claim C8: zombie candidate sort -/

/-- Equal-cost elements pass untouched in front of an ordered insertion:
the insertion only walks past strictly more expensive elements. -/
theorem filter_orderedInsert_cost_eq (z : ZombieResource) (l : List ZombieResource)
    (c : Rat) (hz : z.monthly_cost_est = c) :
    (List.orderedInsert costGE z l).filter (fun y => decide (y.monthly_cost_est = c)) =
      z :: l.filter (fun y => decide (y.monthly_cost_est = c)) := by
  induction l with
  | nil => simp [List.orderedInsert, hz]
  | cons y ys ih =>
    by_cases h : costGE z y
    · simp [List.orderedInsert, h, hz]
    · have hy : ¬ (y.monthly_cost_est = c) := by
        unfold costGE at h
        push_neg at h
        rw [hz] at h
        exact h.ne'
      simp [List.orderedInsert, h, hy, ih]

/-- Inserting an element of a different cost leaves the cost-`c` candidates
of the list untouched. -/
theorem filter_orderedInsert_cost_ne (z : ZombieResource) (l : List ZombieResource)
    (c : Rat) (hz : z.monthly_cost_est ≠ c) :
    (List.orderedInsert costGE z l).filter (fun y => decide (y.monthly_cost_est = c)) =
      l.filter (fun y => decide (y.monthly_cost_est = c)) := by
  induction l with
  | nil => simp [List.orderedInsert, hz]
  | cons y ys ih =>
    by_cases h : costGE z y
    · simp [List.orderedInsert, h, hz]
    · simp [List.orderedInsert, h, List.filter_cons, ih]

/-- C8: the final zombie list is a reordering of the collected candidates,
sorted descending by estimated monthly cost, and candidates of any equal
cost keep their relative insertion order (stability, stated as: filtering
the sorted list to one cost value returns exactly the input's candidates
of that cost, in input order); in particular two $10 disks inserted in a
known order stay in that order ahead of a cheaper candidate. -/
theorem C8_zombie_sort_descending_stable (zombies : List ZombieResource) :
    List.Sorted costGE (sortZombiesByCost zombies) ∧
    (sortZombiesByCost zombies).Perm zombies ∧
    (∀ c : Rat, (sortZombiesByCost zombies).filter
        (fun y => decide (y.monthly_cost_est = c)) =
      zombies.filter (fun y => decide (y.monthly_cost_est = c))) ∧
    sortZombiesByCost
        [⟨"Bucket", "p", "tiny", "", 2, ""⟩,
         ⟨"Disk", "p", "disk-first", "", 10, ""⟩,
         ⟨"Disk", "p", "disk-second", "", 10, ""⟩] =
      [⟨"Disk", "p", "disk-first", "", 10, ""⟩,
       ⟨"Disk", "p", "disk-second", "", 10, ""⟩,
       ⟨"Bucket", "p", "tiny", "", 2, ""⟩] := by
  refine ⟨List.sorted_insertionSort costGE zombies,
    List.perm_insertionSort costGE zombies, ?_, by decide⟩
  intro c
  induction zombies with
  | nil => rfl
  | cons z zs ih =>
    by_cases hz : z.monthly_cost_est = c
    · rw [sortZombiesByCost, List.insertionSort,
        filter_orderedInsert_cost_eq z _ c hz, ← sortZombiesByCost, ih,
        List.filter_cons]
      simp [hz]
    · rw [sortZombiesByCost, List.insertionSort,
        filter_orderedInsert_cost_ne z _ c hz, ← sortZombiesByCost, ih,
        List.filter_cons]
      simp [hz]

/-! ## Claim C1: error handling of the global/project-level kinds -/

/-- An environment in which only the IAM walker raises. -/
def envIamDown : AuditEnv :=
  { envOk with get_iam_report := fun _ => .error "PermissionDenied" }

/-- C1 counterexample: the IAM walker call has no try/except at its call
site in `run_audit_for_project`, so its exception propagates out of the
function — and the storage kind requested after it is never scanned.
This falsifies the claim that exceptions of ANY global kind (including
IAM) are caught at the call site and never propagate. -/
theorem C1_iam_exception_propagates_counterexample :
    run_audit_for_project "proj-a" ["iam", "storage"] ["us-central1"] false
      envIamDown schedId = .error "PermissionDenied" := rfl

/-- C1 amended: for the global kinds OTHER than IAM — sql, network and
storage — a raising walker call is caught at the call site, one warning
attributed to the kind is printed, the kind's result is absent, the other
kinds keep running and the function still returns normally.  (An IAM
walker exception, by contrast, propagates — see the counterexample.) -/
theorem C1_global_kind_failures_caught_amended (pid : String)
    (regions : List String) (env : AuditEnv) (sched : Sched) (e1 e2 e3 : String)
    (h1 : env.sql_list_instances pid = .error e1)
    (h2 : env.get_network_report pid = .error e2)
    (h3 : env.list_buckets pid = .error e3) :
    run_audit_for_project pid ["sql", "network", "storage"] regions false env sched =
      .ok ⟨pid, [],
        [Warning.sqlFail pid e1, Warning.networkFail pid e2,
         Warning.storageFail pid e3]⟩ := by
  simp [run_audit_for_project, sqlStep, networkStep, storageStep, h1, h2, h3]

/-- An environment in which exactly the three caught global kinds raise. -/
def envGlobalsDown : AuditEnv :=
  { envOk with
      sql_list_instances := fun _ => .error "sql api disabled",
      get_network_report := fun _ => .error "network denied",
      list_buckets := fun _ => .error "storage denied" }

/-- C1 witness: the amended theorem applied to a concrete failing
environment. -/
theorem C1_global_kind_failures_caught_witness :
    run_audit_for_project "proj-a" ["sql", "network", "storage"] ["us-central1"]
      false envGlobalsDown schedId =
      .ok ⟨"proj-a", [],
        [Warning.sqlFail "proj-a" "sql api disabled",
         Warning.networkFail "proj-a" "network denied",
         Warning.storageFail "proj-a" "storage denied"]⟩ :=
  C1_global_kind_failures_caught_amended "proj-a" ["us-central1"] envGlobalsDown
    schedId "sql api disabled" "network denied" "storage denied" rfl rfl rfl

/-! ## Claim C3: report shape for failed kinds -/

/-- An environment in which only the SQL walker raises. -/
def envSqlDown : AuditEnv :=
  { envOk with sql_list_instances := fun _ => .error "sql api disabled" }

/-- C3 counterexample: when the requested sql kind's walker fails, the
returned report has NO entry at all under `"sql"` — the key is omitted
entirely rather than set to an empty value, so the report's shape does
distinguish a failed scan from zero resources found.  This falsifies the
claim that every requested kind keeps an (empty) entry on failure. -/
theorem C3_failed_kind_key_omitted_counterexample :
    (run_audit_for_project "proj-a" ["sql"] ["us-central1"] false envSqlDown
        schedId).map (fun r => r.serviceEntry "sql") = .ok none := rfl

/-- C3 amended: the kinds with an internally-catching scan wrapper —
compute, run, gke, vertex — always keep their key in the services map
(with failures showing up only as empty collected lists inside the
value), and iam's key is present when its walker returns and the
display-name enrichment does not reach its write (a write to the
undeclared `user_display_names` field raises and aborts the whole
report); but for sql, network and storage a failed walker call omits the
kind's key entirely, so for those kinds the report's shape alone DOES
distinguish "zero resources found" (key present, empty) from "the scan
failed" (key absent). -/
theorem C3_report_shape_amended (pid : String) (regions : List String)
    (env : AuditEnv) (sched : Sched) (rep : GCPIAMReport) (e1 e2 e3 : String)
    (hiam : env.get_iam_report pid = .ok rep)
    (hnoraise : iamEnrichmentRaises rep env.get_display_name = false)
    (h1 : env.sql_list_instances pid = .error e1)
    (h2 : env.get_network_report pid = .error e2)
    (h3 : env.list_buckets pid = .error e3) :
    (run_audit_for_project pid
        ["compute", "storage", "gke", "vertex", "sql", "iam", "run", "network"]
        regions false env sched).map
      (fun r =>
        ((r.serviceEntry "compute").isSome, (r.serviceEntry "run").isSome,
         (r.serviceEntry "gke").isSome, (r.serviceEntry "vertex").isSome,
         (r.serviceEntry "iam").isSome,
         r.serviceEntry "sql", r.serviceEntry "network",
         r.serviceEntry "storage")) =
      .ok (true, true, true, true, true, none, none, none) := by
  simp [run_audit_for_project, computeStep, runStep, gkeStep, iamStep, sqlStep,
    vertexStep, networkStep, storageStep, AuditReport.serviceEntry,
    Except.map, List.find?, hiam, hnoraise, h1, h2, h3]

/-- An environment where the three caught global kinds fail and
everything else (including IAM) succeeds. -/
def envGlobalsDownIamOk : AuditEnv :=
  { envOk with
      sql_list_instances := fun _ => .error "sql down",
      get_network_report := fun _ => .error "net down",
      list_buckets := fun _ => .error "gcs down" }

/-- C3 witness: the amended shape facts at a concrete environment. -/
theorem C3_report_shape_witness :
    (run_audit_for_project "proj-a"
        ["compute", "storage", "gke", "vertex", "sql", "iam", "run", "network"]
        ["us-central1"] false envGlobalsDownIamOk schedId).map
      (fun r =>
        ((r.serviceEntry "compute").isSome, (r.serviceEntry "run").isSome,
         (r.serviceEntry "gke").isSome, (r.serviceEntry "vertex").isSome,
         (r.serviceEntry "iam").isSome,
         r.serviceEntry "sql", r.serviceEntry "network",
         r.serviceEntry "storage")) =
      .ok (true, true, true, true, true, none, none, none) :=
  C3_report_shape_amended "proj-a" ["us-central1"] envGlobalsDownIamOk schedId
    {} "sql down" "net down" "gcs down" rfl rfl rfl rfl rfl

/-! ## Claim C2: zonal compute fan-out failure isolation -/

/-- A scope's full result list is a sublist of the fan-out concatenation
whenever the scope was scheduled. -/
theorem sublist_flatMap_of_mem {α β : Type} (f : α → List β) {x : α}
    {l : List α} (hx : x ∈ l) : (f x).Sublist (l.flatMap f) := by
  induction l with
  | nil => cases hx
  | cons y ys ih =>
    rw [List.flatMap_cons]
    rcases List.mem_cons.mp hx with h | h
    · subst h
      exact (f x).sublist_append_left (ys.flatMap f)
    · exact (ih h).trans (List.sublist_append_right (f y) (ys.flatMap f))

/-- Scopes whose scan is empty can be dropped from a fan-out
concatenation without changing it. -/
theorem flatMap_eq_flatMap_filter {α β : Type} (l : List α) (p : α → Bool)
    (f : α → List β) (h : ∀ x ∈ l, p x = false → f x = []) :
    l.flatMap f = (l.filter p).flatMap f := by
  induction l with
  | nil => rfl
  | cons x xs ih =>
    have ih' := ih (fun y hy hp => h y (List.mem_cons_of_mem x hy) hp)
    cases hx : p x with
    | true => simp [List.filter_cons, hx, List.flatMap_cons, ih']
    | false =>
      simp [List.filter_cons, hx, List.flatMap_cons,
        h x (List.mem_cons_self x xs) hx, ih']

/-- C2 amended: when one zone's walker call raises, the audit still
returns normally and NO warning attributable to the failing zone is
logged — the zone exception is swallowed silently by `scan_compute_zone`.
The only warning of the compute block is the images/snapshots one, which
is logged on EVERY compute scan (the `machine_images` assignment at
`main.py` line 107 always raises into the shared `except`), so it says
nothing about the failing zone.  The failing zone contributes nothing
(the concatenation equals the one over the other zones only), and every
other scheduled zone's full result list is intact inside the final
concatenated instance list, whatever the completion order of the pool. -/
theorem C2_zone_failure_isolated_amended (env : AuditEnv) (sched : Sched)
    (pid : String) (regions : List String) (im : Bool) (z0 e : String)
    (imgs : List GCPImage)
    (hperm : (sched.computeOrder (target_zones regions)).Perm (target_zones regions))
    (hz0 : env.list_instances pid z0 im = .error e)
    (himg : env.list_images pid = .ok imgs)
    (hmc : env.machine_images_call pid = .ok ()) :
    run_audit_for_project pid ["compute"] regions im env sched =
      .ok ⟨pid,
        [("compute", SVal.compute
          { instances :=
              (sched.computeOrder (target_zones regions)).flatMap
                (fun z => scan_compute_zone env pid z im),
            images := imgs })],
        [Warning.imagesFail machineImagesFieldError]⟩ ∧
    (sched.computeOrder (target_zones regions)).flatMap
        (fun z => scan_compute_zone env pid z im) =
      ((sched.computeOrder (target_zones regions)).filter
          (fun z => decide (z ≠ z0))).flatMap
        (fun z => scan_compute_zone env pid z im) ∧
    ∀ z ∈ target_zones regions, z ≠ z0 →
      ∀ l, env.list_instances pid z im = .ok l →
        l.Sublist ((sched.computeOrder (target_zones regions)).flatMap
          (fun z => scan_compute_zone env pid z im)) := by
  refine ⟨?_, ?_, ?_⟩
  · simp [run_audit_for_project, computeStep, himg, hmc]
  · apply flatMap_eq_flatMap_filter
    intro z _ hz
    have hzz : z = z0 := by
      by_contra hc
      simp [hc] at hz
    subst hzz
    simp [scan_compute_zone, hz0]
  · intro z hz _ l hl
    have hzo : z ∈ sched.computeOrder (target_zones regions) :=
      hperm.mem_iff.mpr hz
    have hscan : scan_compute_zone env pid z im = l := by
      simp [scan_compute_zone, hl]
    rw [← hscan]
    exact sublist_flatMap_of_mem (fun z => scan_compute_zone env pid z im) hzo

/-- An environment in which exactly one of the four zone-scoped calls for
`us-central1` raises; each other zone holds one distinct instance. -/
def envOneZoneDown : AuditEnv :=
  { envOk with list_instances := fun _ z _ =>
      if z = "us-central1-b" then Except.error "zone unreachable"
      else Except.ok [⟨"vm-" ++ z, z⟩] }

/-- C2 counterexample: with exactly one of the four zone calls raising,
the other three zones' instances are all present in the final
concatenation — but NO warning attributable to the failing scope is
logged: the `except` clause of `scan_compute_zone` swallows the zone
exception without logging anything.  The sole logged warning is the
images/snapshots one (the `machine_images` assignment always raises),
and the run with no failing zone logs exactly the same warning list, so
zero warnings are attributable to the failing zone — not one. -/
theorem C2_no_warning_logged_counterexample :
    (run_audit_for_project "proj-a" ["compute"] ["us-central1"] false
        envOneZoneDown schedId).map (fun r => (r.warnings, r.services)) =
      .ok ([Warning.imagesFail machineImagesFieldError],
        [("compute", SVal.compute
          { instances :=
              [⟨"vm-us-central1-a", "us-central1-a"⟩,
               ⟨"vm-us-central1-c", "us-central1-c"⟩,
               ⟨"vm-us-central1-f", "us-central1-f"⟩] })]) ∧
    (run_audit_for_project "proj-a" ["compute"] ["us-central1"] false
        envOk schedId).map (fun r => r.warnings) =
      .ok [Warning.imagesFail machineImagesFieldError] := ⟨rfl, rfl⟩

/-- C2 witness: the amended theorem at the concrete one-zone-down
environment, its conclusion evaluated. -/
theorem C2_zone_failure_isolated_witness :
    run_audit_for_project "proj-a" ["compute"] ["us-central1"] false
        envOneZoneDown schedId =
      .ok ⟨"proj-a",
        [("compute", SVal.compute
          { instances :=
              [⟨"vm-us-central1-a", "us-central1-a"⟩,
               ⟨"vm-us-central1-c", "us-central1-c"⟩,
               ⟨"vm-us-central1-f", "us-central1-f"⟩] })],
        [Warning.imagesFail machineImagesFieldError]⟩ := by
  have h := (C2_zone_failure_isolated_amended envOneZoneDown schedId "proj-a"
    ["us-central1"] false "us-central1-b" "zone unreachable" []
    (List.Perm.refl _) rfl rfl rfl).1
  rw [h]
  rfl

/-! ## Claim C10: identifier invariants of the merged samples -/

/-- A well-formed `fleet_data` entry: the stored record's base identifier
fields agree with its key and are non-empty. -/
def goodEntry (p : (String × String) × FleetSample) : Prop :=
  p.2.project_id = p.1.1 ∧ p.2.instance_id = p.1.2 ∧ p.1.1 ≠ "" ∧ p.1.2 ≠ ""

/-- The `fleet_data` invariant: every entry is well formed and keys are
pairwise distinct (it is a dict). -/
def goodState (st : FleetState) : Prop :=
  (∀ p ∈ st, goodEntry p) ∧ st.Pairwise (fun p q => p.1 ≠ q.1)

theorem goodState_nil : goodState [] :=
  ⟨fun p hp => absurd hp (List.not_mem_nil p), List.Pairwise.nil⟩

/-- Appending a fresh key (not yet present) preserves the invariant. -/
theorem goodState_append_new (st : FleetState) (pid iid : String)
    (z : Option String) (h : goodState st) (hp : pid ≠ "") (hi : iid ≠ "")
    (hfind : st.find? (fun p => p.1 = (pid, iid)) = none) :
    goodState (st ++ [((pid, iid), baseSample pid iid z)]) := by
  obtain ⟨hall, hpw⟩ := h
  constructor
  · intro p hmem
    rcases List.mem_append.mp hmem with h' | h'
    · exact hall p h'
    · simp only [List.mem_singleton] at h'
      subst h'
      exact ⟨rfl, rfl, hp, hi⟩
  · rw [List.pairwise_append]
    refine ⟨hpw, List.pairwise_singleton _ _, ?_⟩
    intro a ha b hb
    simp only [List.mem_singleton] at hb
    subst hb
    have := List.find?_eq_none.mp hfind a ha
    simpa using this

/-- Updating one record's metric map in place preserves the invariant:
keys and base identifier fields are untouched. -/
theorem goodState_map_store (st : FleetState) (key : String × String)
    (label : String) (v : Rat) (h : goodState st) :
    goodState (st.map (fun p =>
      if p.1 = key then (key, { p.2 with metrics := storeMetric p.2.metrics label v })
      else p)) := by
  obtain ⟨hall, hpw⟩ := h
  constructor
  · intro p hmem
    rcases List.mem_map.mp hmem with ⟨q, hq, rfl⟩
    have hgq := hall q hq
    by_cases hk : q.1 = key
    · simp only [if_pos hk]
      exact ⟨hgq.1.trans (congrArg Prod.fst hk), hgq.2.1.trans (congrArg Prod.snd hk),
        hk ▸ hgq.2.2.1, hk ▸ hgq.2.2.2⟩
    · simpa only [if_neg hk] using hgq
  · rw [List.pairwise_map]
    apply hpw.imp
    intro a b hab
    by_cases ha : a.1 = key <;> by_cases hb : b.1 = key <;>
      simp only [if_pos, if_neg, ha, hb, ite_true, ite_false] <;>
      simp_all

/-- Processing any single series preserves the invariant. -/
theorem goodState_processSeries (label : String) (ts : TimeSeries)
    {st : FleetState} (h : goodState st) :
    goodState (processSeries label st ts) := by
  rcases ts with ⟨op, oi, oz, pts⟩
  rcases op with _ | pid
  · exact h
  rcases oi with _ | iid
  · exact h
  by_cases hemp : pid = "" ∨ iid = ""
  · have hred : processSeries label st ⟨some pid, some iid, oz, pts⟩ = st := by
      simp [processSeries, hemp]
    rw [hred]
    exact h
  push_neg at hemp
  obtain ⟨hp, hi⟩ := hemp
  have hst1 : goodState
      (if (st.find? (fun p => p.1 = (pid, iid))).isSome then st
       else st ++ [((pid, iid), baseSample pid iid oz)]) := by
    by_cases hfind : (st.find? (fun p => p.1 = (pid, iid))).isSome
    · simpa [hfind] using h
    · rw [if_neg hfind]
      exact goodState_append_new st pid iid oz h hp hi
        (Option.not_isSome_iff_eq_none.mp hfind)
  have hred : processSeries label st ⟨some pid, some iid, oz, pts⟩ =
      (match pts.head? with
       | some v =>
         (if (st.find? (fun p => p.1 = (pid, iid))).isSome then st
          else st ++ [((pid, iid), baseSample pid iid oz)]).map (fun p =>
           if p.1 = (pid, iid) then
             ((pid, iid),
              { p.2 with metrics :=
                  storeMetric p.2.metrics label (normalizeVal label v) })
           else p)
       | none =>
         if (st.find? (fun p => p.1 = (pid, iid))).isSome then st
         else st ++ [((pid, iid), baseSample pid iid oz)]) := by
    simp [processSeries, hp, hi]
  rw [hred]
  rcases pts.head? with _ | v
  · exact hst1
  · exact goodState_map_store _ (pid, iid) label (normalizeVal label v) hst1

/-- Folding a whole series list preserves the invariant. -/
theorem goodState_foldl_processSeries (label : String) (series : List TimeSeries)
    {st : FleetState} (h : goodState st) :
    goodState (series.foldl (processSeries label) st) := by
  induction series generalizing st with
  | nil => exact h
  | cons ts tss ih => exact ih (goodState_processSeries label ts h)

/-- Running one query (succeeding or raising) preserves the invariant. -/
theorem goodState_runQuery (q : String → Option (List TimeSeries))
    (label : String) {st : FleetState} (h : goodState st) :
    goodState (runQuery q st label) := by
  unfold runQuery
  rcases q label with _ | series
  · exact h
  · exact goodState_foldl_processSeries label series h

/-- The final `fleet_data` of any fetch satisfies the invariant. -/
theorem goodState_fetch (q : String → Option (List TimeSeries)) :
    goodState (METRIC_LABELS.foldl (runQuery q) []) := by
  have hgen : ∀ (labels : List String) (st : FleetState), goodState st →
      goodState (labels.foldl (runQuery q) st) := by
    intro labels
    induction labels with
    | nil => exact fun st h => h
    | cons l ls ih => exact fun st h => ih _ (goodState_runQuery q l h)
  exact hgen METRIC_LABELS [] goodState_nil

/-- C10: every sample returned by `fetch_fleet_metrics` carries non-empty
`project_id` and `instance_id` base identifiers (the `zone` field is set
structurally at the same base initialisation), no two returned samples
share the same `(project_id, instance_id)` pair, and a series whose
`project_id` or `instance_id` label is missing or empty is skipped
entirely — it leaves the accumulated state unchanged. -/
theorem C10_merged_sample_identifiers (q : String → Option (List TimeSeries)) :
    (∀ s ∈ fetch_fleet_metrics q, s.project_id ≠ "" ∧ s.instance_id ≠ "") ∧
    (fetch_fleet_metrics q).Pairwise (fun s t =>
      (s.project_id, s.instance_id) ≠ (t.project_id, t.instance_id)) ∧
    (∀ (st : FleetState) (label : String) (ts : TimeSeries),
      (ts.project_id = none ∨ ts.project_id = some "" ∨
       ts.instance_id = none ∨ ts.instance_id = some "") →
      processSeries label st ts = st) := by
  obtain ⟨hall, hpw⟩ := goodState_fetch q
  refine ⟨?_, ?_, ?_⟩
  · intro s hs
    rcases List.mem_map.mp hs with ⟨p, hp, rfl⟩
    obtain ⟨h1, h2, h3, h4⟩ := hall p hp
    exact ⟨h1 ▸ h3, h2 ▸ h4⟩
  · unfold fetch_fleet_metrics
    rw [List.pairwise_map]
    refine hpw.imp_of_mem ?_
    intro a b ha hb hab
    obtain ⟨ha1, ha2, _, _⟩ := hall a ha
    obtain ⟨hb1, hb2, _, _⟩ := hall b hb
    rw [ha1, ha2, hb1, hb2]
    rcases a with ⟨⟨a1, a2⟩, _⟩
    rcases b with ⟨⟨b1, b2⟩, _⟩
    exact hab
  · intro st label ts hbad
    rcases ts with ⟨op, oi, oz, pts⟩
    rcases op with _ | pid
    · rfl
    rcases oi with _ | iid
    · rfl
    simp only [Option.some.injEq] at hbad
    rcases hbad with h | h | h | h
    · cases h
    · simp [processSeries, h]
    · cases h
    · simp [processSeries, h]

/-- A query set whose only series lacks a `project_id` label. -/
def qBadSeries : String → Option (List TimeSeries) :=
  fun _ => some [⟨none, some "7", none, [1]⟩]

/-- C10 witness: the theorem applied at a concrete query set, with the
skip hypothesis discharged on a concrete label-less series. -/
theorem C10_merged_sample_identifiers_witness :
    (∀ s ∈ fetch_fleet_metrics qBadSeries,
      s.project_id ≠ "" ∧ s.instance_id ≠ "") ∧
    processSeries "cpu_percent" [] ⟨none, some "7", none, [1]⟩ = [] := by
  have h := C10_merged_sample_identifiers qBadSeries
  exact ⟨h.1, h.2.2 [] "cpu_percent" ⟨none, some "7", none, [1]⟩ (Or.inl rfl)⟩
